import Mathlib

/-!
Shallow embedding of the spotify-lyrics-proxy server, src/main.rs.

The program is an axum HTTP relay around one mutable value, a global
`Mutex<SpotifyClient>` holding a map from sp_dc cookie to a cached access
token.  The embedding below translates the pure decision logic of
`get_access_token` (main.rs lines 115-151) and `get_lyrics` (lines 153-205)
into Lean functions.  Network I/O is made explicit: each upstream response
is an input to the function, and the random credential choice is an input
index.  Rust `unwrap()` on a `None` is a panic, modelled by the
`Outcome.panicked` constructor; the state the task held when the panic
fired is returned alongside, since a tokio mutex is not poisoned and the
shared state survives the unwinding.
-/

namespace SpotifyLyricsProxy

/-- Untyped JSON values in the shape of serde_json `Value`, as far as the
program inspects them. -/
inductive JsonValue where
  | null : JsonValue
  | boolean : Bool → JsonValue
  | num : Int → JsonValue
  | str : String → JsonValue
  | arr : List JsonValue → JsonValue
  | obj : List (String × JsonValue) → JsonValue

/-- First binding of a key in a JSON object body, in the manner of
serde_json object lookup. -/
def lookupField : List (String × JsonValue) → String → Option JsonValue
  | [], _ => none
  | (k, v) :: rest, key => if k = key then some v else lookupField rest key

/-- Rust `Value::get(key)`: field lookup, `None` on any non-object. -/
def JsonValue.get : JsonValue → String → Option JsonValue
  | .obj kvs, key => lookupField kvs key
  | _, _ => none

/-- Rust `Value::as_str`. -/
def JsonValue.as_str : JsonValue → Option String
  | .str s => some s
  | _ => none

/-- Rust `Value::as_u64`: the number must be an integer representable in an
unsigned 64-bit word. -/
def JsonValue.as_u64 : JsonValue → Option Nat
  | .num n => if 0 ≤ n ∧ n < 2 ^ 64 then some n.toNat else none
  | _ => none

/-- main.rs lines 101-105: a cached access token. `expires_at` is epoch
milliseconds as an unsigned 64-bit value, modelled as a natural number. -/
structure AccessToken where
  token : String
  expires_at : Nat
deriving DecidableEq

/-- The `HashMap<String, AccessToken>` of the client, modelled as an
association list with at most one binding per key. -/
abbrev Cache := List (String × AccessToken)

/-- HashMap lookup. -/
def cacheFind : Cache → String → Option AccessToken
  | [], _ => none
  | (k, v) :: rest, key => if k = key then some v else cacheFind rest key

/-- HashMap insert: overwrites the binding for the key if present,
otherwise adds one. -/
def cacheInsert : Cache → String → AccessToken → Cache
  | [], key, tok => [(key, tok)]
  | (k, v) :: rest, key, tok =>
    if k = key then (key, tok) :: rest else (k, v) :: cacheInsert rest key tok

/-- main.rs lines 95-99: the global client state behind the mutex. -/
structure SpotifyClient where
  access_tokens : Cache
  user_agent : String
deriving DecidableEq

/-- The distinct error values that flow through `anyhow::Error` inside the
client (transport failures propagated by the question-mark operator, JSON
decoding failures, the two explicit `anyhow!` messages). -/
inductive RustError where
  | transport : RustError
  | badJson : RustError
  | noCookies : RustError
  | somethingWentWrong : RustError
deriving DecidableEq

/-- Result of running a Rust block that may return Ok, return Err, or
panic on an `unwrap()`. -/
inductive Outcome (α : Type) where
  | ok : α → Outcome α
  | err : RustError → Outcome α
  | panicked : Outcome α
deriving DecidableEq

/-- What the token endpoint interaction yields: a transport failure in
send or body read, a body that is not valid JSON, or a parsed JSON value. -/
inductive TokenResponse where
  | sendErr : TokenResponse
  | badBody : TokenResponse
  | json : JsonValue → TokenResponse

/-- main.rs lines 115-151, `SpotifyClient::get_access_token`: exchange a
cookie for a token and insert it into the cache.  The two JSON fields are
read with `unwrap()` in source order (accessToken string first, then the
expiry number); a missing or mistyped field panics before the insert runs,
so the returned state is the unchanged input state. -/
def get_access_token (s : SpotifyClient) (cookie : String) (resp : TokenResponse) :
    Outcome Unit × SpotifyClient :=
  match resp with
  | .sendErr => (.err .transport, s)
  | .badBody => (.err .badJson, s)
  | .json parsed =>
    match parsed.get "accessToken" with
    | none => (.panicked, s)
    | some tokVal =>
      match tokVal.as_str with
      | none => (.panicked, s)
      | some tok =>
        match parsed.get "accessTokenExpirationTimestampMs" with
        | none => (.panicked, s)
        | some expVal =>
          match expVal.as_u64 with
          | none => (.panicked, s)
          | some exp =>
            (.ok (), { s with
              access_tokens := cacheInsert s.access_tokens cookie ⟨tok, exp⟩ })

/-- The two required fields of a token response together, when both are
present with the right types. -/
def parseTokenFields (v : JsonValue) : Option (String × Nat) :=
  match (v.get "accessToken").bind JsonValue.as_str,
        (v.get "accessTokenExpirationTimestampMs").bind JsonValue.as_u64 with
  | some t, some e => some (t, e)
  | _, _ => none

/-- Rust `SliceRandom::choose`: `None` on an empty slice, otherwise the
element at the index the generator drew; the draw is modelled as an
arbitrary natural number reduced modulo the length. -/
def choose (l : List String) (idx : Nat) : Option String :=
  if l.length = 0 then none else l.get? (idx % l.length)

/-- What the lyrics endpoint interaction yields: a transport failure, or a
status code with the JSON decoding of the body (`none` when the body is
not valid JSON; only consulted on status 200). -/
inductive LyricsResponse where
  | sendErr : LyricsResponse
  | httpResp : Nat → Option JsonValue → LyricsResponse

/-- Observable result of one `get_lyrics` call: the returned value or
error or panic, the client state afterwards (for a panic, the state at the
moment the panic fired), how many token exchanges were issued upstream,
and the bearer token the lyrics request was sent with (`none` when the
call never reached the lyrics request). -/
structure GetLyricsResult where
  outcome : Outcome JsonValue
  client : SpotifyClient
  exchanges : Nat
  fetchToken : Option String

/-- main.rs lines 177-204: issue the lyrics request bearing `tok` and
classify the response.  Status 200 reads the body as JSON and takes the
`lyrics` field with `unwrap()` (a missing field panics); any other status
logs and returns the `anyhow!` error "Something went wrong". -/
def fetchWith (tok : AccessToken) (s : SpotifyClient) (exchanges : Nat)
    (lyricsResp : LyricsResponse) : GetLyricsResult :=
  match lyricsResp with
  | .sendErr => ⟨.err .transport, s, exchanges, some tok.token⟩
  | .httpResp status body =>
    if status = 200 then
      match body with
      | none => ⟨.err .badJson, s, exchanges, some tok.token⟩
      | some parsed =>
        match parsed.get "lyrics" with
        | some v => ⟨.ok v, s, exchanges, some tok.token⟩
        | none => ⟨.panicked, s, exchanges, some tok.token⟩
    else ⟨.err .somethingWentWrong, s, exchanges, some tok.token⟩

/-- main.rs lines 165-174: the refresh arm of the cache check.  One call
to `get_access_token`, then the fresh entry is read back with `unwrap()`
and handed to the fetch. -/
def refreshAndFetch (s : SpotifyClient) (cookie : String) (tokenResp : TokenResponse)
    (lyricsResp : LyricsResponse) : GetLyricsResult :=
  match get_access_token s cookie tokenResp with
  | (.ok _, s') =>
    match cacheFind s'.access_tokens cookie with
    | some fresh => fetchWith fresh s' 1 lyricsResp
    | none => ⟨.panicked, s', 1, none⟩
  | (.err e, s') => ⟨.err e, s', 1, none⟩
  | (.panicked, s') => ⟨.panicked, s', 1, none⟩

/-- main.rs lines 153-205, `SpotifyClient::get_lyrics`: pick a cookie at
random, reuse its cached token when `expires_at > now` (strictly), refresh
otherwise or when absent, then fetch the lyrics with the token in hand.
`idx` stands for the random draw, `now` for
`chrono::Utc::now().timestamp_millis() as u64`. -/
def get_lyrics (cookies : List String) (idx : Nat) (now : Nat) (s : SpotifyClient)
    (tokenResp : TokenResponse) (lyricsResp : LyricsResponse) : GetLyricsResult :=
  match choose cookies idx with
  | none => ⟨.err .noCookies, s, 0, none⟩
  | some cookie =>
    match cacheFind s.access_tokens cookie with
    | some cached =>
      if cached.expires_at > now then fetchWith cached s 0 lyricsResp
      else refreshAndFetch s cookie tokenResp lyricsResp
    | none => refreshAndFetch s cookie tokenResp lyricsResp

/-- main.rs lines 20-25: the configuration read from config.toml. -/
structure Config where
  port : Option Nat
  api_keys : Option (List String)
  cookies : List String

/-- main.rs lines 37-40: the `ensure!` guard at the top of `main`; the
process refuses to start when no cookie is configured. -/
def startupCheck (cfg : Config) : Except String Unit :=
  if cfg.cookies.length > 0 then .ok ()
  else .error "You must provide at least one sp_dc cookie"

/-- main.rs line 209: the handler error wrapper around `anyhow::Error`;
the field is the Display text of the wrapped error. -/
structure AppError where
  message : String

/-- The status and body of an inbound HTTP response. -/
structure HttpResponse where
  status : Nat
  body : String
deriving DecidableEq

/-- main.rs lines 212-220: every `AppError` becomes a 500 response whose
body interpolates the wrapped error text after the fixed greeting. -/
def AppError.into_response (e : AppError) : HttpResponse :=
  ⟨500, "Something went wrong: " ++ e.message⟩

/-!
Concurrency model for the `lyrics` handler (main.rs lines 71-93).

The handler runs `CLIENT.lock().await.get_lyrics(&track_id).await`: the
mutex guard is a temporary that lives until the end of the statement, so
the lock is held for the whole select, cache check, possible exchange and
lyrics fetch of that request.  Away from the lock a request touches no
shared state, so each inbound request is modelled as a little program of
three atomic transitions: acquire the lock, run the token step (cache
check plus possible exchange), run the fetch step and release.  A
schedule is an arbitrary list of attempted transitions; an attempt whose
guard fails (lock busy, wrong program counter) leaves the state unchanged,
which covers every interleaving the runtime can produce.  The scenario
fixes one cookie and a mock token endpoint that always answers with the
same well-formed token, matching the property-test setup of the spec.
-/

/-- Program counter of one inbound request: not yet scheduled, holding
the lock before the cache check, holding the lock with a token in hand,
or finished. -/
inductive Phase where
  | idle : Phase
  | locked : Phase
  | tokened : Phase
  | done : Phase
deriving DecidableEq

/-- Global state of the system: who holds the mutex, each request's
program counter, the shared token cache, and a counter of token-exchange
requests that reached the upstream. -/
structure SysState where
  lock : Option Nat
  phase : Nat → Phase
  cache : Cache
  exCount : Nat

/-- Cache after the token step of `get_lyrics` for a mock upstream that
answers every exchange with the token `tok`: reuse when the cached entry
satisfies the strict `expires_at > now` test, otherwise exchange and
insert. -/
def tokenStepCache (cookie : String) (now : Nat) (tok : AccessToken) (c : Cache) : Cache :=
  match cacheFind c cookie with
  | some cached => if cached.expires_at > now then c else cacheInsert c cookie tok
  | none => cacheInsert c cookie tok

/-- Number of upstream exchange calls the token step issues: zero on a
cache hit that passes the strict expiry test, one otherwise. -/
def tokenStepExchanges (cookie : String) (now : Nat) (c : Cache) : Nat :=
  match cacheFind c cookie with
  | some cached => if cached.expires_at > now then 0 else 1
  | none => 1

/-- One attempted transition of one request. -/
inductive Action where
  | acquire : Nat → Action
  | tokenStep : Nat → Action
  | fetchStep : Nat → Action

/-- Guarded small-step semantics.  `n` is the number of requests, `nows r`
the clock reading request `r` observes at its cache check, `tok` the token
the mock upstream answers every exchange with.  An attempt whose guard
does not hold changes nothing. -/
def applyAction (n : Nat) (cookie : String) (nows : Nat → Nat) (tok : AccessToken)
    (s : SysState) : Action → SysState
  | .acquire r =>
    if r < n ∧ s.lock = none ∧ s.phase r = Phase.idle then
      { s with lock := some r, phase := fun q => if q = r then Phase.locked else s.phase q }
    else s
  | .tokenStep r =>
    if s.lock = some r ∧ s.phase r = Phase.locked then
      { s with
        cache := tokenStepCache cookie (nows r) tok s.cache,
        exCount := s.exCount + tokenStepExchanges cookie (nows r) s.cache,
        phase := fun q => if q = r then Phase.tokened else s.phase q }
    else s
  | .fetchStep r =>
    if s.lock = some r ∧ s.phase r = Phase.tokened then
      { s with lock := none, phase := fun q => if q = r then Phase.done else s.phase q }
    else s

/-- Run a whole schedule. -/
def runTrace (n : Nat) (cookie : String) (nows : Nat → Nat) (tok : AccessToken)
    (s : SysState) : List Action → SysState
  | [] => s
  | a :: rest => runTrace n cookie nows tok (applyAction n cookie nows tok s a) rest

/-- Start of the scenario: lock free, every request unscheduled, cache
empty, no upstream call yet. -/
def initState : SysState := ⟨none, fun _ => Phase.idle, [], 0⟩

/-- Request `r` is inside the critical section (between acquire and
release). -/
def busy (s : SysState) (r : Nat) : Prop :=
  s.phase r = Phase.locked ∨ s.phase r = Phase.tokened

/-- The mutex discipline: every busy request holds the lock, and the lock
holder is busy. -/
def LockInv (s : SysState) : Prop :=
  (∀ r, busy s r → s.lock = some r) ∧ (∀ r, s.lock = some r → busy s r)

/-- Progress of the one-cookie scenario: either no request got past its
cache check yet and the cache and the upstream counter are untouched, or
the mock token is cached and exactly one exchange has happened. -/
def CacheInv (n : Nat) (cookie : String) (tok : AccessToken) (s : SysState) : Prop :=
  ((∀ r, r < n → (s.phase r = Phase.idle ∨ s.phase r = Phase.locked)) ∧
    cacheFind s.cache cookie = none ∧ s.exCount = 0) ∨
  (cacheFind s.cache cookie = some tok ∧ s.exCount = 1)

/-!  Lemmas about the cache map. -/

theorem cacheFind_cacheInsert_self (c : Cache) (k : String) (v : AccessToken) :
    cacheFind (cacheInsert c k v) k = some v := by
  induction c with
  | nil => simp [cacheInsert, cacheFind]
  | cons kv rest ih =>
    obtain ⟨k', v'⟩ := kv
    by_cases h : k' = k <;> simp [cacheInsert, cacheFind, h, ih]

theorem cacheFind_cacheInsert_ne (c : Cache) (k q : String) (v : AccessToken)
    (h : q ≠ k) : cacheFind (cacheInsert c k v) q = cacheFind c q := by
  have hk : k ≠ q := fun hq => h hq.symm
  induction c with
  | nil => simp [cacheInsert, cacheFind, hk]
  | cons kv rest ih =>
    obtain ⟨k', v'⟩ := kv
    by_cases hkk : k' = k
    · subst hkk
      simp [cacheInsert, cacheFind, hk]
    · simp [cacheInsert, cacheFind, hkk, ih]

theorem cacheFind_cacheInsert_isSome (c : Cache) (k q : String) (v : AccessToken)
    (h : cacheFind c q ≠ none) : cacheFind (cacheInsert c k v) q ≠ none := by
  by_cases hq : q = k
  · subst hq
    simp [cacheFind_cacheInsert_self]
  · rw [cacheFind_cacheInsert_ne c k q v hq]
    exact h

/-!  Lemmas about the token exchange. -/

theorem get_access_token_json_ok (s : SpotifyClient) (cookie : String) (v : JsonValue)
    (t : String) (e : Nat) (h : parseTokenFields v = some (t, e)) :
    get_access_token s cookie (TokenResponse.json v) =
      (Outcome.ok (), { s with access_tokens := cacheInsert s.access_tokens cookie ⟨t, e⟩ }) := by
  rcases h1 : (v.get "accessToken").bind JsonValue.as_str with _ | t'
  · simp [parseTokenFields, h1] at h
  rcases h2 : (v.get "accessTokenExpirationTimestampMs").bind JsonValue.as_u64 with _ | e'
  · simp [parseTokenFields, h1, h2] at h
  have hte : t' = t ∧ e' = e := by
    simpa [parseTokenFields, h1, h2] using h
  obtain ⟨ht, he⟩ := hte
  subst ht he
  obtain ⟨tv, htv, hts⟩ := Option.bind_eq_some.mp h1
  obtain ⟨ev, hev, hes⟩ := Option.bind_eq_some.mp h2
  simp [get_access_token, htv, hts, hev, hes]

theorem get_access_token_json_malformed (s : SpotifyClient) (cookie : String)
    (v : JsonValue) (h : parseTokenFields v = none) :
    get_access_token s cookie (TokenResponse.json v) = (Outcome.panicked, s) := by
  rcases h1 : v.get "accessToken" with _ | tv
  · simp [get_access_token, h1]
  rcases hts : tv.as_str with _ | t
  · simp [get_access_token, h1, hts]
  rcases h2 : v.get "accessTokenExpirationTimestampMs" with _ | ev
  · simp [get_access_token, h1, hts, h2]
  rcases hes : ev.as_u64 with _ | e
  · simp [get_access_token, h1, hts, h2, hes]
  exfalso
  simp [parseTokenFields, h1, hts, h2, hes] at h

theorem get_access_token_cache_shape (s : SpotifyClient) (cookie : String)
    (resp : TokenResponse) :
    (get_access_token s cookie resp).2.access_tokens = s.access_tokens ∨
    ∃ tk, (get_access_token s cookie resp).2.access_tokens =
      cacheInsert s.access_tokens cookie tk := by
  rcases resp with _ | _ | v
  · left; rfl
  · left; rfl
  rcases h1 : v.get "accessToken" with _ | tv
  · left; simp [get_access_token, h1]
  rcases hts : tv.as_str with _ | t
  · left; simp [get_access_token, h1, hts]
  rcases h2 : v.get "accessTokenExpirationTimestampMs" with _ | ev
  · left; simp [get_access_token, h1, hts, h2]
  rcases hes : ev.as_u64 with _ | e
  · left; simp [get_access_token, h1, hts, h2, hes]
  right
  exact ⟨⟨t, e⟩, by simp [get_access_token, h1, hts, h2, hes]⟩

/-!  Lemmas about the lyrics fetch and the refresh arm. -/

theorem fetchWith_client (tok : AccessToken) (s : SpotifyClient) (ex : Nat)
    (lr : LyricsResponse) : (fetchWith tok s ex lr).client = s := by
  unfold fetchWith
  repeat' split
  all_goals rfl

theorem fetchWith_exchanges (tok : AccessToken) (s : SpotifyClient) (ex : Nat)
    (lr : LyricsResponse) : (fetchWith tok s ex lr).exchanges = ex := by
  unfold fetchWith
  repeat' split
  all_goals rfl

theorem fetchWith_fetchToken (tok : AccessToken) (s : SpotifyClient) (ex : Nat)
    (lr : LyricsResponse) : (fetchWith tok s ex lr).fetchToken = some tok.token := by
  unfold fetchWith
  repeat' split
  all_goals rfl

theorem refreshAndFetch_exchanges (s : SpotifyClient) (cookie : String)
    (tr : TokenResponse) (lr : LyricsResponse) :
    (refreshAndFetch s cookie tr lr).exchanges = 1 := by
  unfold refreshAndFetch
  repeat' split
  all_goals first | rfl | apply fetchWith_exchanges

theorem refreshAndFetch_client (s : SpotifyClient) (cookie : String)
    (tr : TokenResponse) (lr : LyricsResponse) :
    (refreshAndFetch s cookie tr lr).client = (get_access_token s cookie tr).2 := by
  unfold refreshAndFetch
  rcases hg : get_access_token s cookie tr with ⟨o, s'⟩
  rcases o with _ | e | _
  · rcases hf : cacheFind s'.access_tokens cookie with _ | fresh
    · simp [hf]
    · simp [hf, fetchWith_client]
  · simp
  · simp

/-!  Invariant preservation for the concurrency model. -/

theorem applyAction_inv (n : Nat) (cookie : String) (nows : Nat → Nat) (tok : AccessToken)
    (hmock : ∀ r, nows r < tok.expires_at) (s : SysState) (a : Action)
    (h : LockInv s ∧ CacheInv n cookie tok s) :
    LockInv (applyAction n cookie nows tok s a) ∧
      CacheInv n cookie tok (applyAction n cookie nows tok s a) := by
  obtain ⟨⟨hbl, hlb⟩, hc⟩ := h
  rcases a with r | r | r
  · by_cases hg : r < n ∧ s.lock = none ∧ s.phase r = Phase.idle
    · obtain ⟨hrn, hlk, hid⟩ := hg
      have hred : applyAction n cookie nows tok s (Action.acquire r) =
          { s with
            lock := some r
            phase := fun q => if q = r then Phase.locked else s.phase q } := by
        simp [applyAction, hrn, hlk, hid]
      rw [hred]
      refine ⟨⟨?_, ?_⟩, ?_⟩
      · intro q hq
        by_cases hqr : q = r
        · simp [hqr]
        · exfalso
          have : busy s q := by
            rcases hq with hq | hq <;> simp [busy, hqr] at hq ⊢ <;> simp [hq]
          rw [hbl q this] at hlk
          exact Option.noConfusion hlk
      · intro q hq
        have hqr : q = r := by
          simpa using hq.symm
        subst hqr
        left
        simp
      · rcases hc with ⟨hph, hfind, hex⟩ | hB
        · left
          refine ⟨?_, hfind, hex⟩
          intro q hqn
          by_cases hqr : q = r
          · right; simp [hqr]
          · simpa [hqr] using hph q hqn
        · right; exact hB
    · have hred : applyAction n cookie nows tok s (Action.acquire r) = s := by
        simp only [applyAction, if_neg hg]
      rw [hred]
      exact ⟨⟨hbl, hlb⟩, hc⟩
  · by_cases hg : s.lock = some r ∧ s.phase r = Phase.locked
    · obtain ⟨hlk, hph⟩ := hg
      have hred : applyAction n cookie nows tok s (Action.tokenStep r) =
          { s with
            cache := tokenStepCache cookie (nows r) tok s.cache
            exCount := s.exCount + tokenStepExchanges cookie (nows r) s.cache
            phase := fun q => if q = r then Phase.tokened else s.phase q } := by
        simp [applyAction, hlk, hph]
      rw [hred]
      refine ⟨⟨?_, ?_⟩, ?_⟩
      · intro q hq
        by_cases hqr : q = r
        · simp [hqr, hlk]
        · have : busy s q := by
            rcases hq with hq | hq <;> simp [busy, hqr] at hq ⊢ <;> simp [hq]
          simpa using hbl q this
      · intro q hq
        have hq' : s.lock = some q := by simpa using hq
        have hqr : q = r := by
          rw [hlk] at hq'
          exact (Option.some_inj.mp hq').symm
        subst hqr
        right
        simp
      · rcases hc with ⟨hphA, hfind, hex⟩ | ⟨hfind, hex⟩
        · right
          constructor
          · simp only [tokenStepCache, hfind]
            exact cacheFind_cacheInsert_self s.cache cookie tok
          · simp [tokenStepExchanges, hfind, hex]
        · right
          have hvalid : tok.expires_at > nows r := hmock r
          constructor
          · simp [tokenStepCache, hfind, hvalid]
          · simp [tokenStepExchanges, hfind, hvalid, hex]
    · have hred : applyAction n cookie nows tok s (Action.tokenStep r) = s := by
        simp only [applyAction, if_neg hg]
      rw [hred]
      exact ⟨⟨hbl, hlb⟩, hc⟩
  · by_cases hg : s.lock = some r ∧ s.phase r = Phase.tokened
    · obtain ⟨hlk, hph⟩ := hg
      have hred : applyAction n cookie nows tok s (Action.fetchStep r) =
          { s with
            lock := none
            phase := fun q => if q = r then Phase.done else s.phase q } := by
        simp [applyAction, hlk, hph]
      rw [hred]
      refine ⟨⟨?_, ?_⟩, ?_⟩
      · intro q hq
        exfalso
        by_cases hqr : q = r
        · subst hqr
          rcases hq with hq | hq <;> simp [busy] at hq
        · have : busy s q := by
            rcases hq with hq | hq <;> simp [busy, hqr] at hq ⊢ <;> simp [hq]
          have := hbl q this
          rw [hlk] at this
          exact hqr (Option.some_inj.mp this).symm
      · intro q hq
        exact absurd hq.symm (Option.noConfusion)
      · rcases hc with ⟨hphA, hfind, hex⟩ | hB
        · left
          refine ⟨?_, hfind, hex⟩
          intro q hqn
          by_cases hqr : q = r
          · subst hqr
            rcases hphA q hqn with hA | hA <;> rw [hph] at hA <;> exact absurd hA (by simp)
          · simpa [hqr] using hphA q hqn
        · right; exact hB
    · have hred : applyAction n cookie nows tok s (Action.fetchStep r) = s := by
        simp only [applyAction, if_neg hg]
      rw [hred]
      exact ⟨⟨hbl, hlb⟩, hc⟩

theorem runTrace_inv (n : Nat) (cookie : String) (nows : Nat → Nat) (tok : AccessToken)
    (hmock : ∀ r, nows r < tok.expires_at) (acts : List Action) (s : SysState)
    (h : LockInv s ∧ CacheInv n cookie tok s) :
    LockInv (runTrace n cookie nows tok s acts) ∧
      CacheInv n cookie tok (runTrace n cookie nows tok s acts) := by
  induction acts generalizing s with
  | nil => exact h
  | cons a rest ih =>
    exact ih _ (applyAction_inv n cookie nows tok hmock s a h)

theorem initState_inv (n : Nat) (cookie : String) (tok : AccessToken) :
    LockInv initState ∧ CacheInv n cookie tok initState := by
  refine ⟨⟨?_, ?_⟩, ?_⟩
  · intro r hr
    rcases hr with h | h <;> simp [initState] at h
  · intro r hr
    simp [initState] at hr
  · left
    exact ⟨fun r _ => Or.inl rfl, rfl, rfl⟩

/-!  Path lemmas for one `get_lyrics` call. -/

theorem fetchWith_not200 (tok : AccessToken) (s : SpotifyClient) (ex st : Nat)
    (b : Option JsonValue) (h : st ≠ 200) :
    fetchWith tok s ex (LyricsResponse.httpResp st b) =
      ⟨Outcome.err RustError.somethingWentWrong, s, ex, some tok.token⟩ := by
  simp [fetchWith, h]

theorem fetchWith_200_noLyrics (tok : AccessToken) (s : SpotifyClient) (ex : Nat)
    (b : JsonValue) (h : b.get "lyrics" = none) :
    fetchWith tok s ex (LyricsResponse.httpResp 200 (some b)) =
      ⟨Outcome.panicked, s, ex, some tok.token⟩ := by
  simp [fetchWith, h]

theorem fetchWith_200_lyrics (tok : AccessToken) (s : SpotifyClient) (ex : Nat)
    (b v : JsonValue) (h : b.get "lyrics" = some v) :
    fetchWith tok s ex (LyricsResponse.httpResp 200 (some b)) =
      ⟨Outcome.ok v, s, ex, some tok.token⟩ := by
  simp [fetchWith, h]

theorem get_lyrics_hit (cookies : List String) (idx now : Nat) (s : SpotifyClient)
    (tr : TokenResponse) (lr : LyricsResponse) (cookie : String) (cached : AccessToken)
    (h1 : choose cookies idx = some cookie)
    (h2 : cacheFind s.access_tokens cookie = some cached)
    (h3 : cached.expires_at > now) :
    get_lyrics cookies idx now s tr lr = fetchWith cached s 0 lr := by
  simp [get_lyrics, h1, h2, h3]

theorem get_lyrics_miss (cookies : List String) (idx now : Nat) (s : SpotifyClient)
    (tr : TokenResponse) (lr : LyricsResponse) (cookie : String)
    (h1 : choose cookies idx = some cookie)
    (h2 : cacheFind s.access_tokens cookie = none ∨
      ∃ cached, cacheFind s.access_tokens cookie = some cached ∧ cached.expires_at ≤ now) :
    get_lyrics cookies idx now s tr lr = refreshAndFetch s cookie tr lr := by
  rcases h2 with h2 | ⟨cached, h2, hle⟩
  · simp [get_lyrics, h1, h2]
  · simp [get_lyrics, h1, h2, Nat.not_lt.mpr hle]

theorem refreshAndFetch_json_ok (s : SpotifyClient) (cookie : String) (v : JsonValue)
    (t : String) (e : Nat) (lr : LyricsResponse) (h : parseTokenFields v = some (t, e)) :
    refreshAndFetch s cookie (TokenResponse.json v) lr =
      fetchWith ⟨t, e⟩
        { s with access_tokens := cacheInsert s.access_tokens cookie ⟨t, e⟩ } 1 lr := by
  unfold refreshAndFetch
  rw [get_access_token_json_ok s cookie v t e h]
  simp [cacheFind_cacheInsert_self]

theorem get_lyrics_cache_shape (cookies : List String) (idx now : Nat) (s : SpotifyClient)
    (tr : TokenResponse) (lr : LyricsResponse) :
    (get_lyrics cookies idx now s tr lr).client.access_tokens = s.access_tokens ∨
    ∃ cookie tk, choose cookies idx = some cookie ∧
      (get_lyrics cookies idx now s tr lr).client.access_tokens =
        cacheInsert s.access_tokens cookie tk := by
  rcases hch : choose cookies idx with _ | cookie
  · left; simp [get_lyrics, hch]
  rcases hcf : cacheFind s.access_tokens cookie with _ | cached
  · rw [get_lyrics_miss cookies idx now s tr lr cookie hch (Or.inl hcf),
      refreshAndFetch_client]
    rcases get_access_token_cache_shape s cookie tr with h | ⟨tk, h⟩
    · left; exact h
    · right; exact ⟨cookie, tk, rfl, h⟩
  · by_cases hgt : cached.expires_at > now
    · left
      rw [get_lyrics_hit cookies idx now s tr lr cookie cached hch hcf hgt,
        fetchWith_client]
    · rw [get_lyrics_miss cookies idx now s tr lr cookie hch
        (Or.inr ⟨cached, hcf, Nat.not_lt.mp hgt⟩), refreshAndFetch_client]
      rcases get_access_token_cache_shape s cookie tr with h | ⟨tk, h⟩
      · left; exact h
      · right; exact ⟨cookie, tk, rfl, h⟩

/-!  The claims. -/

/-- C1: the claim says a well-formed JSON token response missing the
accessToken or accessTokenExpirationTimestampMs field (or with a wrong
type there) makes get_access_token return a MalformedUpstreamResponse
error.  It does not: the fields are read with unwrap, so the call panics.
Here a response with a prior cache entry in place panics instead of
returning an error value. -/
theorem exchange_malformed_no_error_cex :
    (get_access_token ⟨[("c", ⟨"old", 99⟩)], "ua"⟩ "c"
        (TokenResponse.json (JsonValue.obj []))).1 = Outcome.panicked := rfl

/-- C1 (amended): on a well-formed JSON token response in which the
accessToken field or the accessTokenExpirationTimestampMs field is
missing or has the wrong type, get_access_token panics at the unwrap
rather than returning an error, and the panic fires before the cache
insert, so the client state, including any cache entry previously stored
for that credential, is exactly the input state. -/
theorem exchange_malformed_panics_cache_untouched
    (s : SpotifyClient) (cookie : String) (v : JsonValue)
    (h : parseTokenFields v = none) :
    get_access_token s cookie (TokenResponse.json v) = (Outcome.panicked, s) :=
  get_access_token_json_malformed s cookie v h

/-- C1 witness: the amended statement at a malformed concrete response. -/
theorem exchange_malformed_panics_witness :
    get_access_token ⟨[("c", ⟨"old", 99⟩)], "ua"⟩ "c"
        (TokenResponse.json (JsonValue.obj [])) =
      (Outcome.panicked, ⟨[("c", ⟨"old", 99⟩)], "ua"⟩) :=
  exchange_malformed_panics_cache_untouched ⟨[("c", ⟨"old", 99⟩)], "ua"⟩ "c"
    (JsonValue.obj []) rfl

/-- C2: the claim says a 200 lyrics response whose JSON body has no
lyrics field yields an UpstreamRequestFailed error.  It does not: the
field is read with unwrap, so get_lyrics panics on such a body.  Here the
cached token is valid, the status is 200, the body is an empty object. -/
theorem lyrics_200_missing_field_panics_cex :
    (get_lyrics ["c"] 0 50 ⟨[("c", ⟨"tok", 100⟩)], "ua"⟩ TokenResponse.sendErr
        (LyricsResponse.httpResp 200 (some (JsonValue.obj [])))).outcome =
      Outcome.panicked := rfl

/-- C2 (amended): with a valid cached token for the chosen credential, a
non-200 lyrics status yields the opaque error, a 200 status with a JSON
body carrying a lyrics field yields exactly that field verbatim, and a
200 status whose JSON body has no lyrics field panics at the unwrap
instead of returning an error. -/
theorem lyrics_response_classification
    (cookies : List String) (idx now : Nat) (s : SpotifyClient)
    (tr : TokenResponse) (lr : LyricsResponse) (cookie : String) (cached : AccessToken)
    (h1 : choose cookies idx = some cookie)
    (h2 : cacheFind s.access_tokens cookie = some cached)
    (h3 : cached.expires_at > now) :
    (∀ st b, lr = LyricsResponse.httpResp st b → st ≠ 200 →
      (get_lyrics cookies idx now s tr lr).outcome =
        Outcome.err RustError.somethingWentWrong) ∧
    (∀ b, lr = LyricsResponse.httpResp 200 (some b) → b.get "lyrics" = none →
      (get_lyrics cookies idx now s tr lr).outcome = Outcome.panicked) ∧
    (∀ b v, lr = LyricsResponse.httpResp 200 (some b) → b.get "lyrics" = some v →
      (get_lyrics cookies idx now s tr lr).outcome = Outcome.ok v) := by
  rw [get_lyrics_hit cookies idx now s tr lr cookie cached h1 h2 h3]
  refine ⟨?_, ?_, ?_⟩
  · intro st b heq hne
    subst heq
    rw [fetchWith_not200 cached s 0 st b hne]
  · intro b heq hmiss
    subst heq
    rw [fetchWith_200_noLyrics cached s 0 b hmiss]
  · intro b v heq hget
    subst heq
    rw [fetchWith_200_lyrics cached s 0 b v hget]

/-- C2 witness: a 404 from the lyrics endpoint surfaces as the opaque
error. -/
theorem lyrics_response_classification_witness :
    (get_lyrics ["c"] 0 50 ⟨[("c", ⟨"tok", 100⟩)], "ua"⟩ TokenResponse.sendErr
        (LyricsResponse.httpResp 404 none)).outcome =
      Outcome.err RustError.somethingWentWrong :=
  (lyrics_response_classification ["c"] 0 50 ⟨[("c", ⟨"tok", 100⟩)], "ua"⟩
      TokenResponse.sendErr (LyricsResponse.httpResp 404 none) "c" ⟨"tok", 100⟩
      rfl rfl (by decide)).1 404 none rfl (by decide)

/-- C3: the claim says the error surfaced at the inbound boundary carries
no internal detail.  The handler in fact interpolates the Display text of
the wrapped error into the response body, so two different internal
errors produce two different bodies, and the internal text is readable in
the response. -/
theorem app_error_leaks_detail_cex :
    (AppError.into_response ⟨"error sending request for url"⟩).body =
      "Something went wrong: error sending request for url" ∧
    (AppError.into_response ⟨"error sending request for url"⟩).body ≠
      (AppError.into_response ⟨"No cookies provided"⟩).body :=
  ⟨rfl, by decide⟩

/-- C3 (amended): every core failure surfaces at the inbound boundary as
one uniform class, HTTP status 500 with a body opening with the fixed
text Something went wrong; but the body then appends the internal error
Display text, so upstream and internal error detail is exposed to the
caller rather than confined to server-side logs. -/
theorem app_error_response_shape (e : AppError) :
    (AppError.into_response e).status = 500 ∧
    (AppError.into_response e).body = "Something went wrong: " ++ e.message :=
  ⟨rfl, rfl⟩

/-- C4: with a cache entry present for the chosen credential, the token
is reused exactly when expires_at is strictly greater than now; in
particular expires_at equal to now triggers a refresh, exactly one
exchange. -/
theorem expiry_equality_refreshes
    (cookies : List String) (idx now : Nat) (s : SpotifyClient) (tr : TokenResponse)
    (lr : LyricsResponse) (cookie : String) (cached : AccessToken)
    (h1 : choose cookies idx = some cookie)
    (h2 : cacheFind s.access_tokens cookie = some cached) :
    ((get_lyrics cookies idx now s tr lr).exchanges = 0 ↔ cached.expires_at > now) ∧
    (cached.expires_at = now → (get_lyrics cookies idx now s tr lr).exchanges = 1) := by
  by_cases hgt : cached.expires_at > now
  · rw [get_lyrics_hit cookies idx now s tr lr cookie cached h1 h2 hgt,
      fetchWith_exchanges]
    refine ⟨by simp [hgt], ?_⟩
    intro heq
    exact absurd hgt (by omega)
  · rw [get_lyrics_miss cookies idx now s tr lr cookie h1
      (Or.inr ⟨cached, h2, Nat.not_lt.mp hgt⟩), refreshAndFetch_exchanges]
    exact ⟨by simp [hgt], fun _ => rfl⟩

/-- C4 witness: a token whose expiry equals the clock is refreshed. -/
theorem expiry_equality_refreshes_witness :
    (get_lyrics ["c"] 0 100 ⟨[("c", ⟨"tok", 100⟩)], "ua"⟩
        (TokenResponse.json (JsonValue.obj []))
        (LyricsResponse.httpResp 404 none)).exchanges = 1 :=
  (expiry_equality_refreshes ["c"] 0 100 ⟨[("c", ⟨"tok", 100⟩)], "ua"⟩
      (TokenResponse.json (JsonValue.obj [])) (LyricsResponse.httpResp 404 none)
      "c" ⟨"tok", 100⟩ rfl rfl).2 rfl

/-- C5: with no cache entry, or a cache entry whose expiry is at or
before now, one call performs exactly one exchange, and when the exchange
response is well formed the cache afterwards holds the newly exchanged
token for that credential, the stale entry overwritten. -/
theorem miss_or_expired_single_exchange
    (cookies : List String) (idx now : Nat) (s : SpotifyClient) (tr : TokenResponse)
    (lr : LyricsResponse) (cookie : String)
    (h1 : choose cookies idx = some cookie)
    (h2 : cacheFind s.access_tokens cookie = none ∨
      ∃ cached, cacheFind s.access_tokens cookie = some cached ∧ cached.expires_at ≤ now) :
    (get_lyrics cookies idx now s tr lr).exchanges = 1 ∧
    (∀ v t e, tr = TokenResponse.json v → parseTokenFields v = some (t, e) →
      cacheFind (get_lyrics cookies idx now s tr lr).client.access_tokens cookie =
        some ⟨t, e⟩) := by
  rw [get_lyrics_miss cookies idx now s tr lr cookie h1 h2]
  refine ⟨refreshAndFetch_exchanges s cookie tr lr, ?_⟩
  intro v t e htr hp
  subst htr
  rw [refreshAndFetch_json_ok s cookie v t e lr hp, fetchWith_client]
  exact cacheFind_cacheInsert_self s.access_tokens cookie ⟨t, e⟩

/-- C5 witness: a cold cache with a well-formed exchange response ends
with exactly one exchange and the fresh token stored. -/
theorem miss_or_expired_single_exchange_witness :
    (get_lyrics ["c"] 0 50 ⟨[], "ua"⟩
        (TokenResponse.json (JsonValue.obj [("accessToken", JsonValue.str "T1"),
          ("accessTokenExpirationTimestampMs", JsonValue.num 3600)]))
        (LyricsResponse.httpResp 404 none)).exchanges = 1 ∧
    cacheFind (get_lyrics ["c"] 0 50 ⟨[], "ua"⟩
        (TokenResponse.json (JsonValue.obj [("accessToken", JsonValue.str "T1"),
          ("accessTokenExpirationTimestampMs", JsonValue.num 3600)]))
        (LyricsResponse.httpResp 404 none)).client.access_tokens "c" =
      some ⟨"T1", 3600⟩ :=
  have h := miss_or_expired_single_exchange ["c"] 0 50 ⟨[], "ua"⟩
    (TokenResponse.json (JsonValue.obj [("accessToken", JsonValue.str "T1"),
      ("accessTokenExpirationTimestampMs", JsonValue.num 3600)]))
    (LyricsResponse.httpResp 404 none) "c" rfl (Or.inl rfl)
  ⟨h.1, h.2 (JsonValue.obj [("accessToken", JsonValue.str "T1"),
    ("accessTokenExpirationTimestampMs", JsonValue.num 3600)]) "T1" 3600 rfl rfl⟩

/-- C6: with a cache entry for the chosen credential strictly beyond now,
one call performs zero exchanges, leaves the whole client state
unchanged, and sends the lyrics request with exactly the cached token. -/
theorem valid_hit_no_exchange
    (cookies : List String) (idx now : Nat) (s : SpotifyClient) (tr : TokenResponse)
    (lr : LyricsResponse) (cookie : String) (cached : AccessToken)
    (h1 : choose cookies idx = some cookie)
    (h2 : cacheFind s.access_tokens cookie = some cached)
    (h3 : cached.expires_at > now) :
    (get_lyrics cookies idx now s tr lr).exchanges = 0 ∧
    (get_lyrics cookies idx now s tr lr).client = s ∧
    (get_lyrics cookies idx now s tr lr).fetchToken = some cached.token := by
  rw [get_lyrics_hit cookies idx now s tr lr cookie cached h1 h2 h3]
  exact ⟨fetchWith_exchanges cached s 0 lr, fetchWith_client cached s 0 lr,
    fetchWith_fetchToken cached s 0 lr⟩

/-- C6 witness: a fresh cached token is reused as is. -/
theorem valid_hit_no_exchange_witness :
    (get_lyrics ["c"] 0 50 ⟨[("c", ⟨"tok", 100⟩)], "ua"⟩ TokenResponse.sendErr
        LyricsResponse.sendErr).exchanges = 0 ∧
    (get_lyrics ["c"] 0 50 ⟨[("c", ⟨"tok", 100⟩)], "ua"⟩ TokenResponse.sendErr
        LyricsResponse.sendErr).client = ⟨[("c", ⟨"tok", 100⟩)], "ua"⟩ ∧
    (get_lyrics ["c"] 0 50 ⟨[("c", ⟨"tok", 100⟩)], "ua"⟩ TokenResponse.sendErr
        LyricsResponse.sendErr).fetchToken = some "tok" :=
  valid_hit_no_exchange ["c"] 0 50 ⟨[("c", ⟨"tok", 100⟩)], "ua"⟩ TokenResponse.sendErr
    LyricsResponse.sendErr "c" ⟨"tok", 100⟩ rfl rfl (by decide)

/-- C7: under any interleaving of N concurrent lyrics requests for the
same credential starting from an empty cache, with a mock upstream whose
token outlives every request clock reading, at most one request is ever
inside the select, cache check, exchange, fetch critical section at a
time (the global mutex guard spans the whole sequence), and once all N
requests have finished exactly one token exchange has reached the
upstream. -/
theorem lock_serializes_single_exchange
    (n : Nat) (cookie : String) (nows : Nat → Nat) (tok : AccessToken)
    (acts : List Action) (hmock : ∀ r, nows r < tok.expires_at) (hn : 0 < n) :
    (∀ r₁ r₂, busy (runTrace n cookie nows tok initState acts) r₁ →
        busy (runTrace n cookie nows tok initState acts) r₂ → r₁ = r₂) ∧
    ((∀ r, r < n → (runTrace n cookie nows tok initState acts).phase r = Phase.done) →
      (runTrace n cookie nows tok initState acts).exCount = 1) := by
  obtain ⟨⟨hbl, _⟩, hcache⟩ :=
    runTrace_inv n cookie nows tok hmock acts initState (initState_inv n cookie tok)
  constructor
  · intro r₁ r₂ h₁ h₂
    have e₁ := hbl r₁ h₁
    have e₂ := hbl r₂ h₂
    rw [e₁] at e₂
    exact Option.some_inj.mp e₂
  · intro hdone
    rcases hcache with ⟨hph, _, _⟩ | ⟨_, hex⟩
    · rcases hph 0 hn with h | h <;> rw [hdone 0 hn] at h <;> exact absurd h (by simp)
    · exact hex

/-- C7 witness: one request scheduled to completion performs exactly one
exchange. -/
theorem lock_serializes_single_exchange_witness :
    (runTrace 1 "c" (fun _ => 0) ⟨"T", 1⟩ initState
        [Action.acquire 0, Action.tokenStep 0, Action.fetchStep 0]).exCount = 1 :=
  (lock_serializes_single_exchange 1 "c" (fun _ => 0) ⟨"T", 1⟩
      [Action.acquire 0, Action.tokenStep 0, Action.fetchStep 0]
      (fun _ => Nat.one_pos) Nat.one_pos).2
    (fun r hr => by
      have h0 : r = 0 := Nat.lt_one_iff.mp hr
      subst h0
      decide)

/-- C8: an empty credential list is rejected by the startup ensure, so
the process refuses to start, and whenever the list is non-empty the
credential selection always returns some credential, making the
per-request no-cookie failure arm unreachable. -/
theorem startup_rejects_empty_select_total (cfg : Config) :
    (startupCheck cfg = Except.ok () ↔ cfg.cookies ≠ []) ∧
    (cfg.cookies ≠ [] → ∀ idx, ∃ c, choose cfg.cookies idx = some c) := by
  constructor
  · by_cases h : cfg.cookies.length = 0
    · rw [List.length_eq_zero] at h
      simp [startupCheck, h]
    · have hpos : 0 < cfg.cookies.length := Nat.pos_of_ne_zero h
      have hne : cfg.cookies ≠ [] := List.ne_nil_of_length_pos hpos
      simp [startupCheck, hpos, hne]
  · intro hne idx
    have hpos : 0 < cfg.cookies.length := List.length_pos.mpr hne
    have hlt : idx % cfg.cookies.length < cfg.cookies.length := Nat.mod_lt _ hpos
    refine ⟨cfg.cookies.get ⟨idx % cfg.cookies.length, hlt⟩, ?_⟩
    simp [choose, Nat.pos_iff_ne_zero.mp hpos, List.get?_eq_get hlt]

/-- C8 witness: a one-cookie configuration starts, and selection always
answers. -/
theorem startup_rejects_empty_select_total_witness :
    startupCheck ⟨none, none, ["c"]⟩ = Except.ok () ∧
    ∃ c, choose ["c"] 5 = some c :=
  ⟨(startup_rejects_empty_select_total ⟨none, none, ["c"]⟩).1.mpr (by decide),
    (startup_rejects_empty_select_total ⟨none, none, ["c"]⟩).2 (by decide) 5⟩

/-- C9: one call never removes a cache entry, and the only entry it may
write is the one for the credential it selected; entries under every
other key are returned unchanged, whatever the upstream responses and
however the call ends. -/
theorem cache_never_shrinks_only_selected_key
    (cookies : List String) (idx now : Nat) (s : SpotifyClient)
    (tr : TokenResponse) (lr : LyricsResponse) :
    (∀ k, cacheFind s.access_tokens k ≠ none →
      cacheFind (get_lyrics cookies idx now s tr lr).client.access_tokens k ≠ none) ∧
    (∀ k, choose cookies idx ≠ some k →
      cacheFind (get_lyrics cookies idx now s tr lr).client.access_tokens k =
        cacheFind s.access_tokens k) := by
  rcases get_lyrics_cache_shape cookies idx now s tr lr with h | ⟨cookie, tk, hch, h⟩
  · rw [h]
    exact ⟨fun k hk => hk, fun k _ => rfl⟩
  · rw [h]
    constructor
    · intro k hk
      exact cacheFind_cacheInsert_isSome s.access_tokens cookie k tk hk
    · intro k hk
      have hkc : k ≠ cookie := fun he => hk (by rw [he]; exact hch)
      exact cacheFind_cacheInsert_ne s.access_tokens cookie k tk hkc

/-- C9 witness: an entry under another key survives a failed call
unchanged. -/
theorem cache_never_shrinks_witness :
    cacheFind (get_lyrics ["c"] 0 0 ⟨[("other", ⟨"t", 5⟩)], "ua"⟩
        (TokenResponse.json (JsonValue.obj [])) LyricsResponse.sendErr).client.access_tokens
        "other" =
      cacheFind [("other", ⟨"t", 5⟩)] "other" :=
  (cache_never_shrinks_only_selected_key ["c"] 0 0 ⟨[("other", ⟨"t", 5⟩)], "ua"⟩
      (TokenResponse.json (JsonValue.obj [])) LyricsResponse.sendErr).2 "other" (by decide)

/-- C10: when the cache entry is absent or expired and the exchange
returns a well-formed token whose expiry is already at or before now, the
call still sends the lyrics request bearing exactly that token: the
expiry test is not re-run after the refresh, one exchange happens, the
call neither loops nor fails on the stale expiry. -/
theorem refreshed_token_used_without_recheck
    (cookies : List String) (idx now : Nat) (s : SpotifyClient) (lr : LyricsResponse)
    (cookie : String) (v : JsonValue) (t : String) (e : Nat)
    (h1 : choose cookies idx = some cookie)
    (h2 : cacheFind s.access_tokens cookie = none ∨
      ∃ cached, cacheFind s.access_tokens cookie = some cached ∧ cached.expires_at ≤ now)
    (hp : parseTokenFields v = some (t, e)) (hexp : e ≤ now) :
    (get_lyrics cookies idx now s (TokenResponse.json v) lr).fetchToken = some t ∧
    (get_lyrics cookies idx now s (TokenResponse.json v) lr).exchanges = 1 := by
  rw [get_lyrics_miss cookies idx now s (TokenResponse.json v) lr cookie h1 h2,
    refreshAndFetch_json_ok s cookie v t e lr hp]
  exact ⟨fetchWith_fetchToken ⟨t, e⟩ _ 1 lr, fetchWith_exchanges ⟨t, e⟩ _ 1 lr⟩

/-- C10 witness: an exchange answering a token that expired forty ticks
ago is still the bearer of the lyrics request. -/
theorem refreshed_token_used_without_recheck_witness :
    (get_lyrics ["c"] 0 50 ⟨[], "ua"⟩
        (TokenResponse.json (JsonValue.obj [("accessToken", JsonValue.str "T2"),
          ("accessTokenExpirationTimestampMs", JsonValue.num 10)]))
        LyricsResponse.sendErr).fetchToken = some "T2" ∧
    (get_lyrics ["c"] 0 50 ⟨[], "ua"⟩
        (TokenResponse.json (JsonValue.obj [("accessToken", JsonValue.str "T2"),
          ("accessTokenExpirationTimestampMs", JsonValue.num 10)]))
        LyricsResponse.sendErr).exchanges = 1 :=
  refreshed_token_used_without_recheck ["c"] 0 50 ⟨[], "ua"⟩ LyricsResponse.sendErr
    "c" (JsonValue.obj [("accessToken", JsonValue.str "T2"),
      ("accessTokenExpirationTimestampMs", JsonValue.num 10)]) "T2" 10
    rfl (Or.inl rfl) rfl (by decide)

end SpotifyLyricsProxy
